import Mathlib

/-
Verification of the DSR penetration-testing harness
(src/tests/security/penetration-testing/dsr-penetration-test-suite.py).

The HTTP layer is modelled by an oracle mapping each request the scanner
builds to either a response (status code and body text) or `none`, which
stands for a transport-level exception (timeout / connection error) raised
by the requests library and caught by the script's try/except blocks.
Each probe of class DSRPenetrationTester is embedded as a pure function
from the tester state and the oracle to the list of findings it appends,
in iteration order.
-/

namespace DSR

/-- Initial-segment test on character lists: `charsPre p s` is true when `p`
is an initial segment of `s`. Helper for the Python substring operator. -/
def charsPre : List Char → List Char → Bool
  | [], _ => true
  | _ :: _, [] => false
  | a :: as, b :: bs => a == b && charsPre as bs

/-- Substring occurrence test on character lists. -/
def charsSub (pat : List Char) : List Char → Bool
  | [] => pat.isEmpty
  | c :: rest => charsPre pat (c :: rest) || charsSub pat rest

/-- Models the Python expression `pat in s` on strings. -/
def strContains (s pat : String) : Bool := charsSub pat.data s.data

/-- Models Python `str.lower()` (ASCII case folding, which is all the
scanner's keyword lists need). -/
def strLower (s : String) : String := String.mk (s.data.map Char.toLower)

/-- JSON values occurring in the request bodies the scanner sends. -/
inductive JsonVal where
  | str (s : String)
  | num (n : Int)
deriving DecidableEq

/-- An HTTP request as the scanner builds it: method, URL, query
parameters, JSON body and headers. -/
structure Req where
  method : String
  url : String
  params : List (String × String)
  jsonBody : List (String × JsonVal)
  headers : List (String × String)
deriving DecidableEq

def Req.get (url : String) (params : List (String × String))
    (headers : List (String × String)) : Req :=
  ⟨"GET", url, params, [], headers⟩

def Req.post (url : String) (jsonBody : List (String × JsonVal))
    (headers : List (String × String)) : Req :=
  ⟨"POST", url, [], jsonBody, headers⟩

/-- An HTTP response: status code and body text. -/
structure Response where
  status : Nat
  body : String
deriving DecidableEq

/-- The transport layer. `none` models a requests exception for that call. -/
abbrev Oracle := Req → Option Response

/-- A finding as recorded by log_vulnerability. The wall-clock timestamp
field of the Python dict is not modelled (it never influences control
flow or the aggregate report beyond being echoed). -/
structure Finding where
  service : String
  vulnType : String
  severity : String
  description : String
  evidence : String
  recommendation : String
deriving DecidableEq

/-- Scanner state: the service table and the stored bearer token
(fields services / auth_token of DSRPenetrationTester). -/
structure Tester where
  services : List (String × String)
  auth_token : Option String
deriving DecidableEq

/-- The seven DSR services built by the constructor from base_url. -/
def mkServices (base_url : String) : List (String × String) :=
  [("registration", base_url ++ ":8080"),
   ("data_management", base_url ++ ":8081"),
   ("eligibility", base_url ++ ":8082"),
   ("interoperability", base_url ++ ":8083"),
   ("payment", base_url ++ ":8084"),
   ("grievance", base_url ++ ":8085"),
   ("analytics", base_url ++ ":8086")]

/-- get_headers: the base headers, plus an Authorization bearer header when
include_auth is set and the stored token is truthy (in Python both None
and the empty string are falsy). -/
def get_headers (include_auth : Bool) (auth_token : Option String) :
    List (String × String) :=
  let headers := [("Content-Type", "application/json"),
                  ("User-Agent", "DSR-PenTest-Suite/1.0")]
  match include_auth, auth_token with
  | true, some t =>
      if t == "" then headers else headers ++ [("Authorization", "Bearer " ++ t)]
  | _, _ => headers

/-- The login response: HTTP status and, when the body parses as JSON, the
JSON object (a string-valued field list; `none` means response.json()
raises). -/
structure AuthResponse where
  status : Nat
  json : Option (List (String × String))
deriving DecidableEq

/-- Python dict.get: value of the first binding of the key, or None. -/
def dictGet (j : List (String × String)) (key : String) : Option String :=
  (j.find? (fun p => p.1 == key)).map (fun p => p.2)

/-- authenticate: one POST to /api/v1/auth/login, represented by its
outcome `resp` (`none` = network exception, caught). Returns the reported
success flag and the new stored token. On status 200 with a parseable
JSON body the token becomes the accessToken field (None when absent) and
True is returned; on any other status, unparseable JSON, or an exception,
False is returned and the token is unchanged. -/
def authenticate (resp : Option AuthResponse) (auth_token : Option String) :
    Bool × Option String :=
  match resp with
  | none => (false, auth_token)
  | some r =>
    if r.status == 200 then
      match r.json with
      | none => (false, auth_token)
      | some j => (true, dictGet j "accessToken")
    else (false, auth_token)

/-- Sensitive keywords checked by test_authentication_bypass. -/
def auth_keywords : List String := ["password", "secret", "key", "token"]

/-- Endpoints probed by test_authentication_bypass. -/
def auth_test_endpoints : List String :=
  ["/api/v1/health", "/api/v1/admin/users", "/api/v1/config",
   "/actuator/env", "/actuator/configprops"]

/-- Classification used by test_authentication_bypass: status 200 and a
sensitive keyword in the lowercased body. -/
def authBypassDetect (r : Response) : Bool :=
  r.status == 200 && auth_keywords.any (fun kw => strContains (strLower r.body) kw)

def authBypassFinding (service endpoint : String) (status : Nat) : Finding :=
  { service := service
    vulnType := "Sensitive Data Exposure"
    severity := "HIGH"
    description := "Endpoint " ++ endpoint ++
      " exposes sensitive information without authentication"
    evidence := "Response contains sensitive keywords: " ++ toString status
    recommendation := "Implement proper authentication and data filtering" }

/-- One (service, endpoint) unit of test_authentication_bypass: one
unauthenticated GET (the source passes no headers); an exception yields
no finding and the loop continues. -/
def authBypassUnit (o : Oracle) (service url endpoint : String) : List Finding :=
  match o (Req.get (url ++ endpoint) [] []) with
  | none => []
  | some r =>
      if authBypassDetect r then [authBypassFinding service endpoint r.status] else []

def authBypassService (o : Oracle) (service url : String)
    (endpoints : List String) : List Finding :=
  endpoints.flatMap (fun e => authBypassUnit o service url e)

def test_authentication_bypass (t : Tester) (o : Oracle) : List Finding :=
  t.services.flatMap (fun sv => authBypassService o sv.1 sv.2 auth_test_endpoints)

/-- ASCII single-quote character, spelled by code point. -/
def sq : String := String.singleton (Char.ofNat 39)

def sql_payloads : List String :=
  [sq ++ " OR " ++ sq ++ "1" ++ sq ++ "=" ++ sq ++ "1",
   sq ++ "; DROP TABLE users; --",
   sq ++ " UNION SELECT version() --",
   "1" ++ sq ++ " OR 1=1#",
   "admin" ++ sq ++ "/**/OR/**/1=1#"]

/-- The (endpoint, param) test cases of test_sql_injection. -/
def sql_test_cases : List (String × String) :=
  [("/api/v1/search", "query"),
   ("/api/v1/households/search", "name"),
   ("/api/v1/users", "filter")]

def sql_errors : List String :=
  ["sql syntax", "mysql", "postgresql", "ora-", "sqlite", "syntax error"]

/-- Classification used by test_sql_injection: a database-error substring
in the lowercased body. -/
def sqlDetect (r : Response) : Bool :=
  sql_errors.any (fun e => strContains (strLower r.body) e)

def sqlReq (t : Tester) (url endpoint param payload : String) : Req :=
  Req.get (url ++ endpoint) [(param, payload)] (get_headers true t.auth_token)

def sqlFinding (service endpoint payload : String) : Finding :=
  { service := service
    vulnType := "SQL Injection"
    severity := "CRITICAL"
    description := "SQL injection vulnerability in " ++ endpoint
    evidence := "Payload: " ++ payload ++ ", Response contains SQL errors"
    recommendation := "Use parameterized queries and input validation" }

/-- Payload loop for one SQL test case, with the break on first hit and
continue on exception of the source. -/
def sqlTryPayloads (t : Tester) (o : Oracle) (service url endpoint param : String) :
    List String → List Finding
  | [] => []
  | p :: ps =>
    match o (sqlReq t url endpoint param p) with
    | none => sqlTryPayloads t o service url endpoint param ps
    | some r =>
      if sqlDetect r then [sqlFinding service endpoint p]
      else sqlTryPayloads t o service url endpoint param ps

def test_sql_injection (t : Tester) (o : Oracle) : List Finding :=
  t.services.flatMap (fun sv =>
    sql_test_cases.flatMap (fun tc =>
      sqlTryPayloads t o sv.1 sv.2 tc.1 tc.2 sql_payloads))

def xss_payloads : List String :=
  ["<script>alert(\"XSS\")</script>",
   "<img src=\"x\" onerror=\"alert(1)\">",
   "javascript:alert(\"XSS\")",
   "<svg onload=\"alert(1)\">",
   "\"><script>alert(\"XSS\")</script>"]

/-- The (url, fields) POST endpoints of test_xss_vulnerabilities (the
method is POST for every entry). -/
def xss_test_endpoints : List (String × List String) :=
  [("/api/v1/grievances", ["complainantName", "description"]),
   ("/api/v1/households", ["firstName", "lastName"]),
   ("/api/v1/comments", ["content", "title"])]

/-- Classification used by test_xss_vulnerabilities: status 200 or 201,
and both the raw payload and the raw script tag occur in the body text,
which the source does not lowercase. -/
def xssDetect (payload : String) (r : Response) : Bool :=
  (r.status == 200 || r.status == 201) &&
    (strContains r.body payload && strContains r.body "<script>")

def xssReq (t : Tester) (url endpoint : String) (fields : List String)
    (payload : String) : Req :=
  Req.post (url ++ endpoint) (fields.map (fun f => (f, JsonVal.str payload)))
    (get_headers true t.auth_token)

def xssFinding (service endpoint payload : String) : Finding :=
  { service := service
    vulnType := "Cross-Site Scripting (XSS)"
    severity := "HIGH"
    description := "XSS vulnerability in " ++ endpoint
    evidence := "Payload reflected without encoding: " ++ payload
    recommendation := "Implement proper input validation and output encoding" }

/-- One (endpoint, payload) unit of test_xss_vulnerabilities for one
service; there is no break in the source, so every payload is tried. -/
def xssUnit (t : Tester) (o : Oracle) (service url endpoint : String)
    (fields : List String) (payload : String) : List Finding :=
  match o (xssReq t url endpoint fields payload) with
  | none => []
  | some r => if xssDetect payload r then [xssFinding service endpoint payload] else []

def test_xss_vulnerabilities (t : Tester) (o : Oracle) : List Finding :=
  t.services.flatMap (fun sv =>
    xss_test_endpoints.flatMap (fun ep =>
      xss_payloads.flatMap (fun p => xssUnit t o sv.1 sv.2 ep.1 ep.2 p)))

def bizEligReq (t : Tester) (url : String) : Req :=
  Req.post (url ++ "/api/v1/eligibility/assessments")
    [("householdId", JsonVal.str "HH-TEST-123"),
     ("monthlyIncome", JsonVal.num (-50000)),
     ("assessmentType", JsonVal.str "FULL_ASSESSMENT")]
    (get_headers true t.auth_token)

def bizPaymentReq (t : Tester) (url : String) : Req :=
  Req.post (url ++ "/api/v1/payments")
    [("beneficiaryId", JsonVal.str "BEN-TEST-123"),
     ("amount", JsonVal.num 999999999),
     ("programId", JsonVal.str "PANTAWID")]
    (get_headers true t.auth_token)

/-- Acceptance check of test_business_logic_flaws: status 200 or 201. -/
def bizDetect (r : Response) : Bool := r.status == 200 || r.status == 201

def bizEligFinding (service : String) (status : Nat) : Finding :=
  { service := service
    vulnType := "Business Logic Bypass"
    severity := "HIGH"
    description := "Negative income values accepted in eligibility assessment"
    evidence := "Negative income (-50000) was accepted: " ++ toString status
    recommendation := "Implement server-side business rule validation" }

def bizPaymentFinding (service : String) (status : Nat) : Finding :=
  { service := service
    vulnType := "Business Logic Bypass"
    severity := "CRITICAL"
    description := "Unrealistic payment amounts accepted"
    evidence := "Large payment amount (999999999) was accepted: " ++ toString status
    recommendation := "Implement payment amount limits and validation" }

/-- Per-service behaviour of test_business_logic_flaws: only the
eligibility and payment services issue a request (one each); an exception
is swallowed by `except: pass`. -/
def bizService (t : Tester) (o : Oracle) (sv : String × String) : List Finding :=
  if sv.1 == "eligibility" then
    match o (bizEligReq t sv.2) with
    | none => []
    | some r => if bizDetect r then [bizEligFinding sv.1 r.status] else []
  else if sv.1 == "payment" then
    match o (bizPaymentReq t sv.2) with
    | none => []
    | some r => if bizDetect r then [bizPaymentFinding sv.1 r.status] else []
  else []

def test_business_logic_flaws (t : Tester) (o : Oracle) : List Finding :=
  t.services.flatMap (fun sv => bizService t o sv)

/-- Endpoints probed by test_information_disclosure. -/
def disclosure_endpoints : List String :=
  ["/api/v1/nonexistent", "/api/v1/users/999999", "/api/v1/admin/config",
   "/actuator/env", "/actuator/configprops"]

def disclosure_keywords : List String :=
  ["password", "secret", "key", "token", "database",
   "connection", "jdbc", "username", "config"]

/-- The found_keywords list comprehension of test_information_disclosure. -/
def discloseFound (r : Response) : List String :=
  disclosure_keywords.filter (fun kw => strContains (strLower r.body) kw)

/-- Classification used by test_information_disclosure: a nonempty keyword
list and a status other than 404. -/
def discloseDetect (r : Response) : Bool :=
  !(discloseFound r).isEmpty && r.status != 404

def discloseFinding (service endpoint : String) (found : List String) : Finding :=
  { service := service
    vulnType := "Information Disclosure"
    severity := "MEDIUM"
    description := "Sensitive information exposed in " ++ endpoint
    evidence := "Found keywords: " ++ String.intercalate ", " found
    recommendation := "Remove sensitive information from error messages and responses" }

/-- One (service, endpoint) unit of test_information_disclosure: one GET
without custom headers; an exception yields no finding. -/
def discloseUnit (o : Oracle) (service url endpoint : String) : List Finding :=
  match o (Req.get (url ++ endpoint) [] []) with
  | none => []
  | some r =>
      if discloseDetect r then [discloseFinding service endpoint (discloseFound r)] else []

def discloseService (o : Oracle) (service url : String)
    (endpoints : List String) : List Finding :=
  endpoints.flatMap (fun e => discloseUnit o service url e)

def test_information_disclosure (t : Tester) (o : Oracle) : List Finding :=
  t.services.flatMap (fun sv => discloseService o sv.1 sv.2 disclosure_endpoints)

/-- Names for the five probes of run_comprehensive_test. -/
inductive ProbeId where
  | authBypass
  | sqlInjection
  | xssVulns
  | businessLogic
  | infoDisclosure
deriving DecidableEq

def runProbe (t : Tester) (o : Oracle) : ProbeId → List Finding
  | .authBypass => test_authentication_bypass t o
  | .sqlInjection => test_sql_injection t o
  | .xssVulns => test_xss_vulnerabilities t o
  | .businessLogic => test_business_logic_flaws t o
  | .infoDisclosure => test_information_disclosure t o

/-- The order in which run_comprehensive_test runs the five probes. -/
def probe_order : List ProbeId :=
  [.authBypass, .sqlInjection, .xssVulns, .businessLogic, .infoDisclosure]

/-- Findings accumulated by running the given probes in the given order on
a shared, initially empty vulnerability list. -/
def runProbes (t : Tester) (o : Oracle) (order : List ProbeId) : List Finding :=
  order.flatMap (runProbe t o)

/-- The full finding list of one run_comprehensive_test call started on an
empty vulnerability list. -/
def all_findings (t : Tester) (o : Oracle) : List Finding :=
  runProbes t o probe_order

/-- The severity counters of run_comprehensive_test (len of the filtered
vulnerability list). -/
def countSeverity (vulns : List Finding) (s : String) : Nat :=
  (vulns.filter (fun v => v.severity == s)).length

def get_overall_security_status (vulns : List Finding) : String :=
  let critical_vulns := countSeverity vulns "CRITICAL"
  let high_vulns := countSeverity vulns "HIGH"
  if critical_vulns > 0 then "CRITICAL_RISK"
  else if high_vulns > 3 then "HIGH_RISK"
  else if high_vulns > 0 then "MEDIUM_RISK"
  else "LOW_RISK"

/-- The summary block computed at the end of run_comprehensive_test
(duration and the echoed per-probe result maps omitted). -/
structure Summary where
  total_vulnerabilities : Nat
  critical : Nat
  high : Nat
  medium : Nat
  low : Nat
  overall_security_status : String
deriving DecidableEq

def run_comprehensive_test (t : Tester) (o : Oracle) : Summary :=
  let vulns := all_findings t o
  { total_vulnerabilities := vulns.length
    critical := countSeverity vulns "CRITICAL"
    high := countSeverity vulns "HIGH"
    medium := countSeverity vulns "MEDIUM"
    low := countSeverity vulns "LOW"
    overall_security_status := get_overall_security_status vulns }

/-
Concrete fixtures used to evaluate the model on closed inputs: small
testers, and oracles standing for mocked endpoints.
-/

/-- A tester that scans only the eligibility service. -/
def elTester : Tester := ⟨[("eligibility", "E")], none⟩

/-- A tester that scans only the grievance service. -/
def grvTester : Tester := ⟨[("grievance", "G")], none⟩

/-- A transport layer on which every request raises an exception. -/
def noneOracle : Oracle := fun _ => none

/-- Every endpoint accepts with status 201 and an uninteresting body. -/
def accept201Oracle : Oracle := fun _ => some ⟨201, "x"⟩

/-- Every endpoint rejects with status 400. -/
def reject400Oracle : Oracle := fun _ => some ⟨400, "bad"⟩

/-- The search endpoint answers with a database error in the body; every
other endpoint answers 404 with an empty body. -/
def sqlErrorOracle : Oracle := fun r =>
  if r.url == "E/api/v1/search" then some ⟨500, "sql syntax error"⟩
  else some ⟨404, ""⟩

/-- The grievance form endpoint echoes the first XSS payload verbatim with
status 201; every other endpoint answers 404. -/
def xssEchoOracle : Oracle := fun r =>
  if r.url == "G/api/v1/grievances" then some ⟨201, xss_payloads.headD ""⟩
  else some ⟨404, ""⟩

/-- The HTML-escaped rendering of the first XSS payload. -/
def xssEscapedBody : String := "&lt;script&gt;alert(&quot;XSS&quot;)&lt;/script&gt;"

/-- The grievance form endpoint echoes the HTML-escaped payload with
status 201; every other endpoint answers 404. -/
def xssEscapedOracle : Oracle := fun r =>
  if r.url == "G/api/v1/grievances" then some ⟨201, xssEscapedBody⟩
  else some ⟨404, ""⟩

/-- The first XSS payload with every letter upper-cased: a body equal to
the payload up to letter case only. -/
def xssUpperBody : String := "<SCRIPT>ALERT(\"XSS\")</SCRIPT>"

/-- The first entry of the XSS payload list. -/
def firstXssPayload : String := xss_payloads.headD ""

/-- The first entry of the SQL payload list. -/
def firstSqlPayload : String := sql_payloads.headD ""

/-
Theorems settling the claims. Helper lemmas come first.
-/

/-- Every finding of the SQL payload loop comes from a payload of the list
whose response contained a database-error substring, and is the CRITICAL
finding built for that payload. -/
theorem mem_sqlTryPayloads {t : Tester} {o : Oracle}
    {service url endpoint param : String} {ps : List String} {f : Finding}
    (hf : f ∈ sqlTryPayloads t o service url endpoint param ps) :
    ∃ p r, p ∈ ps ∧ o (sqlReq t url endpoint param p) = some r ∧ sqlDetect r = true ∧
      f = sqlFinding service endpoint p := by
  induction ps with
  | nil => simp [sqlTryPayloads] at hf
  | cons p ps ih =>
    cases ho : o (sqlReq t url endpoint param p) with
    | none =>
      simp only [sqlTryPayloads, ho] at hf
      obtain ⟨q, r, hq, h1, h2, h3⟩ := ih hf
      exact ⟨q, r, List.mem_cons_of_mem _ hq, h1, h2, h3⟩
    | some r =>
      simp only [sqlTryPayloads, ho] at hf
      by_cases hd : sqlDetect r
      · rw [if_pos hd] at hf
        simp only [List.mem_singleton] at hf
        exact ⟨p, r, List.mem_cons_self p ps, ho, hd, hf⟩
      · rw [if_neg hd] at hf
        obtain ⟨q, r', hq, h1, h2, h3⟩ := ih hf
        exact ⟨q, r', List.mem_cons_of_mem _ hq, h1, h2, h3⟩

/-- Every finding of an authentication-bypass unit has severity HIGH. -/
theorem sev_of_mem_authBypassUnit {o : Oracle} {service url e : String} {f : Finding}
    (hf : f ∈ authBypassUnit o service url e) : f.severity = "HIGH" := by
  unfold authBypassUnit at hf
  split at hf
  · simp at hf
  · split at hf
    · simp only [List.mem_singleton] at hf
      subst hf
      rfl
    · simp at hf

/-- Every finding of an XSS unit has severity HIGH. -/
theorem sev_of_mem_xssUnit {t : Tester} {o : Oracle} {service url e : String}
    {fields : List String} {payload : String} {f : Finding}
    (hf : f ∈ xssUnit t o service url e fields payload) : f.severity = "HIGH" := by
  unfold xssUnit at hf
  split at hf
  · simp at hf
  · split at hf
    · simp only [List.mem_singleton] at hf
      subst hf
      rfl
    · simp at hf

/-- Every finding of an information-disclosure unit has severity MEDIUM. -/
theorem sev_of_mem_discloseUnit {o : Oracle} {service url e : String} {f : Finding}
    (hf : f ∈ discloseUnit o service url e) : f.severity = "MEDIUM" := by
  unfold discloseUnit at hf
  split at hf
  · simp at hf
  · split at hf
    · simp only [List.mem_singleton] at hf
      subst hf
      rfl
    · simp at hf

/-- Every finding of the business-logic probe for one service has severity
CRITICAL (payment) or HIGH (eligibility). -/
theorem sev_of_mem_bizService {t : Tester} {o : Oracle} {sv : String × String} {f : Finding}
    (hf : f ∈ bizService t o sv) :
    f.severity = "CRITICAL" ∨ f.severity = "HIGH" := by
  unfold bizService at hf
  split at hf
  · split at hf
    · simp at hf
    · split at hf
      · simp only [List.mem_singleton] at hf
        subst hf
        right
        rfl
      · simp at hf
  · split at hf
    · split at hf
      · simp at hf
      · split at hf
        · simp only [List.mem_singleton] at hf
          subst hf
          left
          rfl
        · simp at hf
    · simp at hf

/-- Every finding any of the five probes appends carries severity CRITICAL,
HIGH or MEDIUM: the literal LOW never occurs in a log_vulnerability call. -/
theorem sev3_of_mem_runProbe {t : Tester} {o : Oracle} {pid : ProbeId} {f : Finding}
    (hf : f ∈ runProbe t o pid) :
    f.severity = "CRITICAL" ∨ f.severity = "HIGH" ∨ f.severity = "MEDIUM" := by
  cases pid with
  | authBypass =>
    simp only [runProbe, test_authentication_bypass, authBypassService,
      List.mem_flatMap] at hf
    obtain ⟨sv, _, e, _, hu⟩ := hf
    exact Or.inr (Or.inl (sev_of_mem_authBypassUnit hu))
  | sqlInjection =>
    simp only [runProbe, test_sql_injection, List.mem_flatMap] at hf
    obtain ⟨sv, _, tc, _, hu⟩ := hf
    obtain ⟨p, r, _, _, _, h3⟩ := mem_sqlTryPayloads hu
    exact Or.inl (by rw [h3]; rfl)
  | xssVulns =>
    simp only [runProbe, test_xss_vulnerabilities, List.mem_flatMap] at hf
    obtain ⟨sv, _, ep, _, p, _, hu⟩ := hf
    exact Or.inr (Or.inl (sev_of_mem_xssUnit hu))
  | businessLogic =>
    simp only [runProbe, test_business_logic_flaws, List.mem_flatMap] at hf
    obtain ⟨sv, _, hu⟩ := hf
    rcases sev_of_mem_bizService hu with h | h
    · exact Or.inl h
    · exact Or.inr (Or.inl h)
  | infoDisclosure =>
    simp only [runProbe, test_information_disclosure, discloseService,
      List.mem_flatMap] at hf
    obtain ⟨sv, _, e, _, hu⟩ := hf
    exact Or.inr (Or.inr (sev_of_mem_discloseUnit hu))

/-- Severity bookkeeping: when no finding is LOW, the LOW counter is zero
and the list length is the sum of the other three counters. -/
theorem count_of_sev3 (fs : List Finding)
    (h : ∀ f ∈ fs, f.severity = "CRITICAL" ∨ f.severity = "HIGH" ∨ f.severity = "MEDIUM") :
    countSeverity fs "LOW" = 0 ∧
    fs.length = countSeverity fs "CRITICAL" + countSeverity fs "HIGH" +
      countSeverity fs "MEDIUM" := by
  induction fs with
  | nil => simp [countSeverity]
  | cons f fs ih =>
    have hf := h f (by simp)
    obtain ⟨hr1, hr2⟩ := ih (fun g hg => h g (by simp [hg]))
    have hstep : ∀ s : String,
        countSeverity (f :: fs) s = (if f.severity == s then 1 else 0) + countSeverity fs s := by
      intro s
      simp only [countSeverity, List.filter_cons]
      split <;> simp [Nat.add_comm]
    rcases hf with h1 | h1 | h1 <;>
      constructor <;>
      simp only [hstep, List.length_cons, h1] <;>
      simp <;>
      omega

/-- C1: for every finding list, the overall security status is CRITICAL_RISK
when there is at least one CRITICAL finding, otherwise HIGH_RISK when there
are more than 3 HIGH findings, otherwise MEDIUM_RISK when there is at least
one HIGH finding, and LOW_RISK otherwise; in particular exactly 1 CRITICAL
gives CRITICAL_RISK regardless of the other counters, 0 CRITICAL with 4 HIGH
gives HIGH_RISK, 0 CRITICAL with 1 HIGH gives MEDIUM_RISK, and 0 CRITICAL
with 0 HIGH gives LOW_RISK. -/
theorem C1_overall_status_rule (fs : List Finding) :
    (get_overall_security_status fs =
      if 0 < countSeverity fs "CRITICAL" then "CRITICAL_RISK"
      else if 3 < countSeverity fs "HIGH" then "HIGH_RISK"
      else if 1 ≤ countSeverity fs "HIGH" then "MEDIUM_RISK"
      else "LOW_RISK") ∧
    (countSeverity fs "CRITICAL" = 1 → get_overall_security_status fs = "CRITICAL_RISK") ∧
    (countSeverity fs "CRITICAL" = 0 → countSeverity fs "HIGH" = 4 →
      get_overall_security_status fs = "HIGH_RISK") ∧
    (countSeverity fs "CRITICAL" = 0 → countSeverity fs "HIGH" = 1 →
      get_overall_security_status fs = "MEDIUM_RISK") ∧
    (countSeverity fs "CRITICAL" = 0 → countSeverity fs "HIGH" = 0 →
      get_overall_security_status fs = "LOW_RISK") := by
  unfold get_overall_security_status
  refine ⟨?_, ?_, ?_, ?_, ?_⟩ <;> intros <;> dsimp only <;> split_ifs <;> first | rfl | omega

/-- Closed instance of C1: a single CRITICAL finding gives CRITICAL_RISK and
the empty finding list gives LOW_RISK. -/
theorem C1_overall_status_rule_witness :
    get_overall_security_status [sqlFinding "registration" "/api/v1/search" "p"] =
      "CRITICAL_RISK" ∧
    get_overall_security_status [] = "LOW_RISK" := by
  constructor
  · exact (C1_overall_status_rule _).2.1 (by decide)
  · exact (C1_overall_status_rule _).2.2.2.2 (by decide) (by decide)

/-- C2 fails as stated: the XSS probe is not a case-insensitive function of
the response body. Two responses with the same status 201 and bodies equal
up to letter case (the first payload, and its upper-cased form) make the
XSS unit record a finding for the first body and none for the second. -/
theorem C2_xss_case_sensitive_counterexample :
    strLower firstXssPayload = strLower xssUpperBody ∧
    xssUnit grvTester (fun _ => some ⟨201, firstXssPayload⟩) "grievance" "G"
        "/api/v1/grievances" ["complainantName", "description"] firstXssPayload =
      [xssFinding "grievance" "/api/v1/grievances" firstXssPayload] ∧
    xssUnit grvTester (fun _ => some ⟨201, xssUpperBody⟩) "grievance" "G"
        "/api/v1/grievances" ["complainantName", "description"] firstXssPayload =
      [] := by decide

/-- C2 amended: for every pair of responses with equal status codes and
bodies equal up to letter case, the classification of every probe except
the XSS probe is the same; the XSS probe checks the raw body and is
case-sensitive. -/
theorem C2_amended_case_insensitive (r₁ r₂ : Response)
    (hs : r₁.status = r₂.status) (hb : strLower r₁.body = strLower r₂.body) :
    authBypassDetect r₁ = authBypassDetect r₂ ∧
    sqlDetect r₁ = sqlDetect r₂ ∧
    bizDetect r₁ = bizDetect r₂ ∧
    discloseFound r₁ = discloseFound r₂ ∧
    discloseDetect r₁ = discloseDetect r₂ := by
  obtain ⟨s₁, b₁⟩ := r₁
  obtain ⟨s₂, b₂⟩ := r₂
  dsimp only at hs hb
  subst hs
  simp [authBypassDetect, sqlDetect, bizDetect, discloseFound, discloseDetect, hb]

/-- Closed instance of the amended C2 at two bodies differing in case. -/
theorem C2_amended_case_insensitive_witness :
    authBypassDetect ⟨200, "a Password b"⟩ = authBypassDetect ⟨200, "a pAsSwOrD b"⟩ ∧
    sqlDetect ⟨200, "a Password b"⟩ = sqlDetect ⟨200, "a pAsSwOrD b"⟩ := by
  have h := C2_amended_case_insensitive ⟨200, "a Password b"⟩ ⟨200, "a pAsSwOrD b"⟩
    (by decide) (by decide)
  exact ⟨h.1, h.2.1⟩

/-- C3: in the SQL-injection probe a finding is recorded exactly for test
cases where some response body contains a database-error substring, every
such finding has severity CRITICAL, the payload loop stops at the first
payload whose response matches, and against the mocked endpoint whose body
is the text sql syntax error the probe records exactly one CRITICAL finding
for the service. -/
theorem C3_sql_injection_probe :
    (∀ t o service url endpoint param p ps r,
       o (sqlReq t url endpoint param p) = some r → sqlDetect r = true →
       sqlTryPayloads t o service url endpoint param (p :: ps) =
         [sqlFinding service endpoint p]) ∧
    (∀ t o service url endpoint param ps f,
       f ∈ sqlTryPayloads t o service url endpoint param ps →
       f.severity = "CRITICAL" ∧
       ∃ p r, p ∈ ps ∧ o (sqlReq t url endpoint param p) = some r ∧ sqlDetect r = true ∧
         f = sqlFinding service endpoint p) ∧
    test_sql_injection elTester sqlErrorOracle =
      [sqlFinding "eligibility" "/api/v1/search" firstSqlPayload] := by
  refine ⟨?_, ?_, by decide⟩
  · intro t o service url endpoint param p ps r ho hd
    simp [sqlTryPayloads, ho, hd]
  · intro t o service url endpoint param ps f hf
    obtain ⟨p, r, hp, h1, h2, h3⟩ := mem_sqlTryPayloads hf
    exact ⟨by rw [h3]; rfl, p, r, hp, h1, h2, h3⟩

/-- Closed instance of C3: the first payload hits and the loop returns the
single CRITICAL finding. -/
theorem C3_sql_injection_probe_witness :
    sqlTryPayloads elTester sqlErrorOracle "eligibility" "E" "/api/v1/search" "query"
      (firstSqlPayload :: []) =
      [sqlFinding "eligibility" "/api/v1/search" firstSqlPayload] := by
  exact C3_sql_injection_probe.1 elTester sqlErrorOracle "eligibility" "E"
    "/api/v1/search" "query" firstSqlPayload [] ⟨500, "sql syntax error"⟩
    (by decide) (by decide)

/-- C4: an XSS unit records a finding exactly when the status is 200 or 201
and the raw payload together with the raw script tag occur in the body;
the finding is HIGH; a mocked 201 grievance endpoint echoing the first
payload verbatim yields exactly one HIGH finding over the whole probe, and
an endpoint echoing the HTML-escaped payload yields none. -/
theorem C4_xss_probe :
    (∀ t o service url endpoint fields payload r,
       o (xssReq t url endpoint fields payload) = some r →
       xssUnit t o service url endpoint fields payload =
         (if xssDetect payload r then [xssFinding service endpoint payload] else []) ∧
       (xssFinding service endpoint payload).severity = "HIGH") ∧
    test_xss_vulnerabilities grvTester xssEchoOracle =
      [xssFinding "grievance" "/api/v1/grievances" firstXssPayload] ∧
    test_xss_vulnerabilities grvTester xssEscapedOracle = [] := by
  refine ⟨?_, by decide, by decide⟩
  intro t o service url endpoint fields payload r ho
  exact ⟨by simp [xssUnit, ho], rfl⟩

/-- Closed instance of C4 at the echoing endpoint. -/
theorem C4_xss_probe_witness :
    xssUnit grvTester xssEchoOracle "grievance" "G" "/api/v1/grievances"
      ["complainantName", "description"] firstXssPayload =
      (if xssDetect firstXssPayload ⟨201, firstXssPayload⟩ then
        [xssFinding "grievance" "/api/v1/grievances" firstXssPayload]
      else []) := by
  exact (C4_xss_probe.1 grvTester xssEchoOracle "grievance" "G" "/api/v1/grievances"
    ["complainantName", "description"] firstXssPayload
    ⟨201, firstXssPayload⟩ (by decide)).1

/-- C5: in every probe, a triple whose request raises a transport exception
contributes no finding and the iteration proceeds over the remaining
triples unchanged; stated per probe over its innermost loop and, for the
business-logic probe, over its single request per service. -/
theorem C5_fault_isolation :
    (∀ o service url l₁ e l₂, o (Req.get (url ++ e) [] []) = none →
       authBypassService o service url (l₁ ++ e :: l₂) =
       authBypassService o service url (l₁ ++ l₂)) ∧
    (∀ t o service url endpoint param l₁ p l₂,
       o (sqlReq t url endpoint param p) = none →
       sqlTryPayloads t o service url endpoint param (l₁ ++ p :: l₂) =
       sqlTryPayloads t o service url endpoint param (l₁ ++ l₂)) ∧
    (∀ t o service url endpoint fields l₁ payload l₂,
       o (xssReq t url endpoint fields payload) = none →
       (l₁ ++ payload :: l₂).flatMap (fun q => xssUnit t o service url endpoint fields q) =
       (l₁ ++ l₂).flatMap (fun q => xssUnit t o service url endpoint fields q)) ∧
    (∀ t o url, o (bizEligReq t url) = none → bizService t o ("eligibility", url) = []) ∧
    (∀ t o url, o (bizPaymentReq t url) = none → bizService t o ("payment", url) = []) ∧
    (∀ o service url l₁ e l₂, o (Req.get (url ++ e) [] []) = none →
       discloseService o service url (l₁ ++ e :: l₂) =
       discloseService o service url (l₁ ++ l₂)) := by
  refine ⟨?_, ?_, ?_, ?_, ?_, ?_⟩
  · intro o service url l₁ e l₂ ho
    simp [authBypassService, List.flatMap_append, authBypassUnit, ho]
  · intro t o service url endpoint param l₁ p l₂ ho
    induction l₁ with
    | nil => simp [sqlTryPayloads, ho]
    | cons q l₁ ih =>
      simp only [List.cons_append, sqlTryPayloads]
      cases hq : o (sqlReq t url endpoint param q) with
      | none => simpa [hq] using ih
      | some r =>
        by_cases hd : sqlDetect r <;> simp [hq, hd, ih]
  · intro t o service url endpoint fields l₁ payload l₂ ho
    simp [List.flatMap_append, xssUnit, ho]
  · intro t o url ho
    simp [bizService, ho]
  · intro t o url ho
    simp [bizService, ho]
  · intro o service url l₁ e l₂ ho
    simp [discloseService, List.flatMap_append, discloseUnit, ho]

/-- Closed instance of C5 on an oracle that always raises. -/
theorem C5_fault_isolation_witness :
    authBypassService noneOracle "eligibility" "E" ([] ++ "/api/v1/health" :: []) =
      authBypassService noneOracle "eligibility" "E" ([] ++ []) ∧
    bizService elTester noneOracle ("eligibility", "E") = [] := by
  constructor
  · exact C5_fault_isolation.1 noneOracle "eligibility" "E" [] "/api/v1/health" [] rfl
  · exact C5_fault_isolation.2.2.2.1 elTester noneOracle "E" rfl

/-- C6: authenticate reports success exactly when the login response has
status 200 with a parseable JSON body; on success the stored token becomes
the accessToken field; on failure the stored token is unchanged. -/
theorem C6_authenticate_contract (resp : Option AuthResponse) (st : Option String) :
    ((authenticate resp st).1 = true ↔
      ∃ r, resp = some r ∧ r.status = 200 ∧ r.json.isSome) ∧
    ((authenticate resp st).1 = false → (authenticate resp st).2 = st) ∧
    (∀ r j, resp = some r → r.status = 200 → r.json = some j →
      (authenticate resp st).2 = dictGet j "accessToken") := by
  refine ⟨?_, ?_, ?_⟩
  · cases resp with
    | none => simp [authenticate]
    | some r =>
      cases hj : r.json with
      | none => simp [authenticate, hj]
      | some j =>
        by_cases hs : r.status = 200 <;> simp [authenticate, hj, hs]
  · cases resp with
    | none => simp [authenticate]
    | some r =>
      cases hj : r.json with
      | none => simp [authenticate, hj]
      | some j =>
        by_cases hs : r.status = 200 <;> simp [authenticate, hj, hs]
  · rintro r j rfl hs hj
    simp [authenticate, hs, hj]

/-- Closed instance of C6: a 200 login stores the extracted token, a 401
login leaves the old token in place. -/
theorem C6_authenticate_contract_witness :
    (authenticate (some ⟨200, some [("accessToken", "tok")]⟩) none).2 =
      dictGet [("accessToken", "tok")] "accessToken" ∧
    (authenticate (some ⟨401, none⟩) (some "old")).2 = some "old" := by
  constructor
  · exact (C6_authenticate_contract (some ⟨200, some [("accessToken", "tok")]⟩) none).2.2
      _ _ rfl rfl rfl
  · exact (C6_authenticate_contract (some ⟨401, none⟩) (some "old")).2.1 (by decide)

/-- C7: submitting the negative-income assessment to the eligibility
service and receiving 201 yields exactly the one HIGH finding; receiving
400 yields none. -/
theorem C7_negative_income (t : Tester) (o : Oracle) (url : String) :
    (∀ b, o (bizEligReq t url) = some ⟨201, b⟩ →
       bizService t o ("eligibility", url) = [bizEligFinding "eligibility" 201] ∧
       (bizEligFinding "eligibility" 201).severity = "HIGH") ∧
    (∀ b, o (bizEligReq t url) = some ⟨400, b⟩ →
       bizService t o ("eligibility", url) = []) := by
  constructor
  · intro b ho
    refine ⟨?_, rfl⟩
    simp [bizService, ho, bizDetect]
  · intro b ho
    simp [bizService, ho, bizDetect]

/-- Closed instance of C7 on accepting and rejecting endpoints. -/
theorem C7_negative_income_witness :
    bizService elTester accept201Oracle ("eligibility", "E") =
      [bizEligFinding "eligibility" 201] ∧
    bizService elTester reject400Oracle ("eligibility", "E") = [] := by
  constructor
  · exact ((C7_negative_income elTester accept201Oracle "E").1 "x" (by decide)).1
  · exact (C7_negative_income elTester reject400Oracle "E").2 "bad" (by decide)

/-- C8: with a fixed request-to-response mapping, running the five probes
in any permutation of the source order gives the same severity histogram,
the same total finding count, and the same overall security status. -/
theorem C8_probe_order_insensitive (t : Tester) (o : Oracle) (order : List ProbeId)
    (h : order.Perm probe_order) :
    (∀ s, countSeverity (runProbes t o order) s = countSeverity (all_findings t o) s) ∧
    (runProbes t o order).length = (all_findings t o).length ∧
    get_overall_security_status (runProbes t o order) =
      get_overall_security_status (all_findings t o) := by
  have hperm : (runProbes t o order).Perm (all_findings t o) := h.flatMap_right (runProbe t o)
  have hc : ∀ s, countSeverity (runProbes t o order) s = countSeverity (all_findings t o) s :=
    fun s => (hperm.filter _).length_eq
  refine ⟨hc, hperm.length_eq, ?_⟩
  unfold get_overall_security_status
  rw [hc, hc]

/-- Closed instance of C8: the reversed probe order gives the same overall
status as the source order. -/
theorem C8_probe_order_insensitive_witness :
    get_overall_security_status (runProbes elTester accept201Oracle
      [.infoDisclosure, .businessLogic, .xssVulns, .sqlInjection, .authBypass]) =
    get_overall_security_status (all_findings elTester accept201Oracle) := by
  exact (C8_probe_order_insensitive elTester accept201Oracle
    [.infoDisclosure, .businessLogic, .xssVulns, .sqlInjection, .authBypass]
    (by decide)).2.2

/-- C9: no probe ever records a LOW finding: every recorded severity is
CRITICAL, HIGH or MEDIUM, so in every summary the low counter is 0 and the
total equals the sum of the critical, high and medium counters. -/
theorem C9_no_low_severity :
    (∀ t o f, f ∈ all_findings t o →
       f.severity = "CRITICAL" ∨ f.severity = "HIGH" ∨ f.severity = "MEDIUM") ∧
    (∀ t o, (run_comprehensive_test t o).low = 0 ∧
       (run_comprehensive_test t o).total_vulnerabilities =
         (run_comprehensive_test t o).critical + (run_comprehensive_test t o).high +
           (run_comprehensive_test t o).medium) := by
  have hmem : ∀ t o f, f ∈ all_findings t o →
      f.severity = "CRITICAL" ∨ f.severity = "HIGH" ∨ f.severity = "MEDIUM" := by
    intro t o f hf
    simp only [all_findings, runProbes, List.mem_flatMap] at hf
    obtain ⟨pid, _, hu⟩ := hf
    exact sev3_of_mem_runProbe hu
  refine ⟨hmem, fun t o => ?_⟩
  exact count_of_sev3 (all_findings t o) (hmem t o)

/-- Closed instance of C9 on a run that records one finding. -/
theorem C9_no_low_severity_witness :
    (bizEligFinding "eligibility" 201).severity = "CRITICAL" ∨
      (bizEligFinding "eligibility" 201).severity = "HIGH" ∨
      (bizEligFinding "eligibility" 201).severity = "MEDIUM" := by
  exact C9_no_low_severity.1 elTester accept201Oracle (bizEligFinding "eligibility" 201)
    (by decide)

/-- C10: a 200 login response whose JSON lacks the accessToken field makes
authenticate report success while the stored token becomes None, and with
no stored token every later header set omits the Authorization entry. -/
theorem C10_success_without_token (st : Option String) (j : List (String × String))
    (hj : dictGet j "accessToken" = none) :
    authenticate (some ⟨200, some j⟩) st = (true, none) ∧
    (∀ b : Bool, get_headers b none =
        [("Content-Type", "application/json"), ("User-Agent", "DSR-PenTest-Suite/1.0")] ∧
      "Authorization" ∉ (get_headers b none).map Prod.fst) := by
  constructor
  · simp [authenticate, hj]
  · intro b
    cases b <;> simp [get_headers]

/-- Closed instance of C10 at a token-free 200 response. -/
theorem C10_success_without_token_witness :
    authenticate (some ⟨200, some [("email", "x")]⟩) (some "old") = (true, none) ∧
    "Authorization" ∉ (get_headers true none).map Prod.fst := by
  refine ⟨(C10_success_without_token (some "old") [("email", "x")] (by decide)).1, ?_⟩
  exact ((C10_success_without_token (some "old") [("email", "x")] (by decide)).2 true).2

end DSR
